import Mathlib

/-!
Verification of the portfolio-website repository (FastAPI + MongoDB).
Shallow embedding of `app/database.py`, `app/models.py` and `app/main.py`:
pure functions over explicit store state, with exceptional control flow made
explicit.  BSON documents are association lists of field name to value;
MongoDB ObjectIds are modelled as their 24-character lowercase hex strings;
datetimes are modelled as natural-number timestamps.
-/

namespace Portfolio

/-- A BSON value as stored by this application: strings, booleans, lists of
strings (tech_stack), timestamps (datetime), null (Python None). -/
inductive Value where
  | vStr (s : String)
  | vBool (b : Bool)
  | vList (l : List String)
  | vTime (t : Nat)
  | vNone
deriving DecidableEq, Repr

/-- A document in a MongoDB collection: its `_id` (ObjectId, modelled as the
24-char hex string) and the remaining fields as an association list. -/
structure StoredDoc where
  oid : String
  fields : List (String × Value)
deriving DecidableEq, Repr

/-- Python `str(x) if x else None` conversion used for the optional URL form
fields in `add_project` / `edit_project` (`github_url if github_url else None`). -/
def optStr (s : String) : Value :=
  if s = "" then Value.vNone else Value.vStr s

/-! ### Python string primitives, structurally recursive over the char list
(the Lean builtins `String.splitOn`, `String.trim`, `String.toLower` use
well-founded recursion over byte positions and are opaque to evaluation by
the kernel; these are the same functions on `s.data`). -/

/-- Python `s.split(sep)` for a single-character separator, over char lists:
every occurrence of `sep` ends a segment, so adjacent separators yield empty
segments and the empty input yields one empty segment. -/
def splitChars (sep : Char) : List Char → List (List Char)
  | [] => [[]]
  | c :: cs =>
    let r := splitChars sep cs
    if c == sep then [] :: r
    else
      match r with
      | [] => [[c]]
      | g :: gs => (c :: g) :: gs

/-- Python `s.split(",")`. -/
def pySplitComma (s : String) : List String :=
  (splitChars ',' s.data).map (fun g => String.mk g)

/-- Python `s.strip()`: remove leading and trailing whitespace (ASCII
whitespace; the Unicode extras Python also strips do not occur here). -/
def pyStrip (s : String) : String :=
  String.mk (((s.data.dropWhile Char.isWhitespace).reverse.dropWhile Char.isWhitespace).reverse)

/-- ASCII lowercase conversion of one character. -/
def charLower (c : Char) : Char :=
  if 65 ≤ c.toNat && c.toNat ≤ 90 then Char.ofNat (c.toNat + 32) else c

/-- ASCII lowercase conversion of a string. -/
def lowerStr (s : String) : String := String.mk (s.data.map charLower)

/-- Python `len(s)`. -/
def pyLen (s : String) : Nat := s.data.length

/-- Hexadecimal digit test, as accepted by `bson.ObjectId` for the 24-character
string form. -/
def isHexChar (c : Char) : Bool :=
  c.isDigit || (97 ≤ c.toNat && c.toNat ≤ 102) || (65 ≤ c.toNat && c.toNat ≤ 70)

/-- `bson.ObjectId.is_valid` on a string input: exactly 24 hex characters. -/
def isValidObjectId (s : String) : Bool :=
  pyLen s == 24 && s.data.all isHexChar

/-- `bson.ObjectId(s)`: returns the canonical (lowercase) id, or `none` when the
constructor raises `InvalidId`. -/
def parseObjectId (s : String) : Option String :=
  if isValidObjectId s then some (lowerStr s) else none

/-- The message of the `bson.errors.InvalidId` exception raised by
`ObjectId(s)` on a malformed id (exact wording abbreviated; the handlers only
forward it as the detail of a 500 error). -/
def invalidIdMessage (s : String) : String :=
  s ++ " is not a valid ObjectId"

/-! ## `app/database.py` — the `Database` class -/

/-- The mutable state of the `Database` instance: `self.client` and `self.db`,
both `None` until assigned (the handles themselves carry no further state we
need, so they are modelled as `Unit`). -/
structure DBState where
  client : Option Unit
  dbh : Option Unit
deriving DecidableEq, Repr

/-- `Database.__init__`: client and db start as `None`. -/
def initDB : DBState := ⟨none, none⟩

/-- `Database.connect`.  `clientOk` is whether `MongoClient(uri)` construction
succeeds (it does not contact the server); `serverOk` is whether
`self.client.server_info()` succeeds.  Mirrors the source order: `self.client`
and `self.db` are assigned BEFORE the reachability test, and the `except`
branch returns `False` without undoing the assignments. -/
def Database.connect (st : DBState) (clientOk serverOk : Bool) : DBState × Bool :=
  if clientOk then
    let st2 : DBState := ⟨some (), some ()⟩
    if serverOk then (st2, true) else (st2, false)
  else (st, false)

/-- `Database.get_collection`: returns the named collection handle when
`self.db is not None`, otherwise raises `Exception("Database not connected")`.
The collection handle is modelled by the collection name. -/
def Database.get_collection (st : DBState) (name : String) : Except String String :=
  match st.dbh with
  | some _ => Except.ok name
  | none => Except.error "Database not connected"

/-! ## Collection primitives (pymongo semantics used by the handlers) -/

/-- `collection.delete_one(filter on _id)`: removes the first document whose
`_id` matches; returns `deleted_count` and the new collection contents. -/
def deleteOne (oid : String) : List StoredDoc → Nat × List StoredDoc
  | [] => (0, [])
  | d :: ds =>
    if d.oid == oid then (1, ds)
    else
      let r := deleteOne oid ds
      (r.1, d :: r.2)

/-- MongoDB `$set` of a single field: replace the value if the key is present,
append it otherwise. -/
def setField (k : String) (v : Value) (fs : List (String × Value)) : List (String × Value) :=
  if fs.any (fun p => p.1 == k) then
    fs.map (fun p => if p.1 == k then (k, v) else p)
  else fs ++ [(k, v)]

/-- MongoDB `$set` of an update document, field by field. -/
def applySet (upd : List (String × Value)) (fs : List (String × Value)) : List (String × Value) :=
  upd.foldl (fun acc kv => setField kv.1 kv.2 acc) fs

/-- Result of `collection.update_one`: `matched_count`, `modified_count` and
the new collection contents. -/
structure UpdateResult where
  matched : Nat
  modified : Nat
  store : List StoredDoc
deriving DecidableEq, Repr

/-- `collection.update_one(filter on _id, set update)`: applies `$set` to the
first document whose `_id` matches; `modified_count` is 1 only if the document
actually changed. -/
def updateOne (oid : String) (upd : List (String × Value)) : List StoredDoc → UpdateResult
  | [] => ⟨0, 0, []⟩
  | d :: ds =>
    if d.oid == oid then
      let d2 : StoredDoc := ⟨d.oid, applySet upd d.fields⟩
      ⟨1, if d2 == d then 0 else 1, d2 :: ds⟩
    else
      let r := updateOne oid upd ds
      ⟨r.matched, r.modified, d :: r.store⟩

/-! ## HTTP responses -/

/-- The outcomes a handler can produce: the JSON body with success true,
a redirect, or an `HTTPException` carrying a status code and detail. -/
inductive Resp where
  | jsonSuccess
  | redirect (code : Nat) (url : String)
  | err (code : Nat) (detail : String)
deriving DecidableEq, Repr

/-! ## `delete_project` (main.py lines 429 to 440)

```
try:
    projects_collection = get_projects_collection()
    result = projects_collection.delete_one(filter on ObjectId(project_id))
    if result.deleted_count:
        return json success true
    else:
        raise HTTPException(status_code=404, detail="Project not found")
except Exception as e:
    raise HTTPException(status_code=500, detail=str(e))
```

`fastapi.HTTPException` is a subclass of `Exception`, so the 404 raised in the
`try` body is caught by the blanket `except` and re-raised as a 500 whose
detail is `str(e)` — starlette renders that as "404: Project not found".
`dbConnected` is whether `get_projects_collection()` succeeds. -/
def delete_project (project_id : String) (dbConnected : Bool)
    (store : List StoredDoc) : Resp × List StoredDoc :=
  if dbConnected then
    match parseObjectId project_id with
    | none => (Resp.err 500 (invalidIdMessage project_id), store)
    | some oid =>
      let r := deleteOne oid store
      if r.1 ≠ 0 then (Resp.jsonSuccess, r.2)
      else (Resp.err 500 "404: Project not found", r.2)
  else (Resp.err 500 "Database not connected", store)

/-! ## Tech-stack parsing (main.py line 360 and line 399)

Python: `[tech.strip() for tech in tech_stack.split(",") if tech.strip()]`.
Python `s.split(",")` is `String.splitOn ","`; `s.strip()` is `String.trim`
(both strip leading and trailing whitespace).  The comprehension filters on
the truthiness of `tech.strip()` (kept iff nonempty) and yields the stripped
segment. -/

/-- The tech-stack parse in `add_project` (main.py line 360). -/
def addParseTechStack (tech_stack : String) : List String :=
  ((pySplitComma tech_stack).filter (fun tech => pyStrip tech != "")).map (fun tech => pyStrip tech)

/-- The tech-stack parse in `edit_project` (main.py line 399), textually the
same comprehension. -/
def editParseTechStack (tech_stack : String) : List String :=
  ((pySplitComma tech_stack).filter (fun tech => pyStrip tech != "")).map (fun tech => pyStrip tech)

/-- The parsing the spec describes: split on commas, trim each segment, remove
empty segments. -/
def specTechStack (tech_stack : String) : List String :=
  ((pySplitComma tech_stack).map (fun tech => pyStrip tech)).filter (fun t => t != "")

/-! ## `app/models.py` — pydantic schemas as inserted dictionaries -/

/-- `ProjectCreate(...).dict()` (models.py lines 63 to 71): exactly the fields
declared on `ProjectCreate` — note there is NO `created_at` and no
`updated_at` on this schema.  `image_url` is never passed by `add_project`
and keeps its default `None`. -/
def projectCreateDict (name description : String) (tech_list : List String)
    (status github_url demo_url : String) (featured : Bool) : List (String × Value) :=
  [("name", Value.vStr name),
   ("description", Value.vStr description),
   ("tech_stack", Value.vList tech_list),
   ("status", Value.vStr status),
   ("github_url", optStr github_url),
   ("demo_url", optStr demo_url),
   ("image_url", Value.vNone),
   ("featured", Value.vBool featured)]

/-- `ProjectCreate` field validation (models.py lines 63 to 71): name 1..100,
description 10..500, tech_stack at least one entry, status in the enum.
URL fields are unconstrained optional strings. -/
def projectCreateValid (name description : String) (tech_list : List String)
    (status : String) : Bool :=
  decide (1 ≤ pyLen name) && decide (pyLen name ≤ 100) &&
  decide (10 ≤ pyLen description) && decide (pyLen description ≤ 500) &&
  decide (1 ≤ tech_list.length) &&
  (status == "Completed" || status == "In Progress" || status == "Planning")

/-- `ContactCreate(...).dict()` (models.py lines 103 to 109): exactly the
fields declared on `ContactCreate` — note there is NO `created_at` and no
`read` on this schema. -/
def contactCreateDict (first_name last_name email subject message : String)
    (newsletter_signup : Bool) : List (String × Value) :=
  [("first_name", Value.vStr first_name),
   ("last_name", Value.vStr last_name),
   ("email", Value.vStr email),
   ("subject", Value.vStr subject),
   ("message", Value.vStr message),
   ("newsletter_signup", Value.vBool newsletter_signup)]

/-- `ContactCreate` validation (models.py lines 103 to 109): first and last
name 1..50, email must pass the `EmailStr` format check (the email-validator
library is external to this repository, so the format predicate `isEmail` is a
parameter), subject 1..100, message at most 1000.  Pydantic rejects the record
when any field fails; the error value names an offending field. -/
def contactValidate (isEmail : String → Bool)
    (first_name last_name email subject message : String) (newsletter_signup : Bool) :
    Except String (List (String × Value)) :=
  if !(decide (1 ≤ pyLen first_name) && decide (pyLen first_name ≤ 50)) then
    Except.error "first_name"
  else if !(decide (1 ≤ pyLen last_name) && decide (pyLen last_name ≤ 50)) then
    Except.error "last_name"
  else if !(isEmail email) then
    Except.error "email"
  else if !(decide (1 ≤ pyLen subject) && decide (pyLen subject ≤ 100)) then
    Except.error "subject"
  else if !(decide (pyLen message ≤ 1000)) then
    Except.error "message"
  else
    Except.ok (contactCreateDict first_name last_name email subject message newsletter_signup)

/-! ## `add_project` (main.py lines 346 to 382)

The whole body is inside `try`; a `ValidationError` from `ProjectCreate` or a
store failure is caught, logged and falls through to the same
`RedirectResponse(url="/admin", status_code=303)` that the success path
returns.  `newId` is the ObjectId pymongo generates for the inserted document;
`dbConnected` is whether `get_projects_collection()` and the insert succeed. -/
def add_project (name description tech_stack status github_url demo_url : String)
    (featured : Bool) (newId : String) (dbConnected : Bool)
    (store : List StoredDoc) : Resp × List StoredDoc :=
  let tech_list := addParseTechStack tech_stack
  if projectCreateValid name description tech_list status then
    if dbConnected then
      (Resp.redirect 303 "/admin",
        store ++ [⟨newId, projectCreateDict name description tech_list status
          github_url demo_url featured⟩])
    else
      (Resp.redirect 303 "/admin", store)
  else
    (Resp.redirect 303 "/admin", store)

/-! ## `edit_project` (main.py lines 384 to 427)

```
try:
    tech_list = parse ...
    update_data = dict with name..featured and updated_at=utcnow()
    result = projects_collection.update_one(filter on ObjectId(project_id), set update_data)
    if result.modified_count:
        return RedirectResponse("/admin", 303)
    else:
        raise HTTPException(status_code=404, detail="Project not found")
except Exception as e:
    print(...)
return RedirectResponse("/admin", 303)
```

The 404 raised inside `try` is caught by the blanket `except Exception`
(HTTPException subclasses Exception), which only prints; control then falls
through to the final redirect.  So every path ends in the 303 redirect.
`now` is `datetime.utcnow()`. -/
def edit_project (project_id name description tech_stack status github_url demo_url : String)
    (featured : Bool) (now : Nat) (dbConnected : Bool)
    (store : List StoredDoc) : Resp × List StoredDoc :=
  let tech_list := editParseTechStack tech_stack
  let update_data : List (String × Value) :=
    [("name", Value.vStr name),
     ("description", Value.vStr description),
     ("tech_stack", Value.vList tech_list),
     ("status", Value.vStr status),
     ("github_url", optStr github_url),
     ("demo_url", optStr demo_url),
     ("featured", Value.vBool featured),
     ("updated_at", Value.vTime now)]
  match parseObjectId project_id with
  | none => (Resp.redirect 303 "/admin", store)
  | some oid =>
    if dbConnected then
      let r := updateOne oid update_data store
      if r.modified ≠ 0 then
        (Resp.redirect 303 "/admin", r.store)
      else
        (Resp.redirect 303 "/admin", r.store)
    else
      (Resp.redirect 303 "/admin", store)

/-! ## `send_email` (main.py lines 32 to 73)

Returns `False` without attempting delivery when `EMAIL_USERNAME` or
`EMAIL_PASSWORD` is empty; otherwise attempts SMTP delivery, returning `True`
on success and `False` on any exception (caught and logged). -/
def send_email (emailUsername emailPassword : String) (deliveryOk : Bool) : Bool :=
  if emailUsername == "" || emailPassword == "" then false
  else deliveryOk

/-- The success message rendered when the record was saved and the email
notification went through (main.py line 294). -/
def msgSentOk : String :=
  "Thank you! Your message has been sent successfully. I\x27ll get back to you soon!"

/-- The success message rendered when the record was saved but `send_email`
returned `False` (skipped or failed) (main.py line 296). -/
def msgSavedNoEmail : String :=
  "Thank you! Your message has been saved. I\x27ll get back to you soon! (Email notification failed)"

/-- The message rendered when `result.inserted_id` is falsy (main.py
line 298); unreachable in practice since pymongo always generates an id. -/
def msgDbUnavailable : String :=
  "Thank you for your message! (Database currently unavailable, but your message was received)"

/-- The message rendered by the `except` branch (main.py line 305), reached on
a validation error or a store failure. -/
def msgTechnicalIssue : String :=
  "Thank you for your message! There was a technical issue, but I\x27ll still try to get back to you."

/-- The rendered result of POST /contact: the documents inserted into the
contacts collection during the request, and the template response (always
`contact.html` with HTTP 200, carrying a success message). -/
structure SubmitResult where
  writes : List (List (String × Value))
  page : String
  status : Nat
  message : String
deriving DecidableEq, Repr

/-! ## `submit_contact` (main.py lines 236 to 311)

Control flow inside `try`: build `ContactCreate` (raises `ValidationError` on
bad input), `get_contacts_collection()` (raises if not connected),
`insert_one` (raises on store failure), then `send_email` (never raises) and
the choice of success message.  Any exception lands in the `except` branch
with `msgTechnicalIssue` and no insert.  `storeOk` is whether the collection
lookup and the insert succeed; `insertedId` is `result.inserted_id`
(`""` models a falsy id). -/
def submit_contact (isEmail : String → Bool)
    (firstName lastName email subject message : String) (newsletter : Bool)
    (storeOk : Bool) (insertedId : String)
    (emailUsername emailPassword : String) (deliveryOk : Bool) : SubmitResult :=
  match contactValidate isEmail firstName lastName email subject message newsletter with
  | Except.error _ =>
    ⟨[], "contact.html", 200, msgTechnicalIssue⟩
  | Except.ok contact_dict =>
    if storeOk then
      let email_sent := send_email emailUsername emailPassword deliveryOk
      let success_msg :=
        if insertedId != "" then
          if email_sent then msgSentOk else msgSavedNoEmail
        else msgDbUnavailable
      ⟨[contact_dict], "contact.html", 200, success_msg⟩
    else
      ⟨[], "contact.html", 200, msgTechnicalIssue⟩

/-! ## Home page (main.py lines 184 to 204) -/

/-- A project as rendered by the home page; only the fields of the fallback
records are needed. -/
structure FProj where
  fid : String
  fname : String
  fdescription : String
  ftech : List String
  fstatus : String
  ffeatured : Bool
deriving DecidableEq, Repr

/-- `FALLBACK_PROJECTS` (main.py lines 88 to 121), the fixed in-memory data
served when the database is unavailable. -/
def FALLBACK_PROJECTS : List FProj :=
  [⟨"1", "Social Media Platform",
    "A social networking application with user profiles and posts",
    ["Python", "Flask", "SQLite"], "Completed", true⟩,
   ⟨"2", "Learning Platform",
    "Educational platform with courses and progress tracking",
    ["Python", "Django", "PostgreSQL"], "Completed", true⟩,
   ⟨"3", "Music Streaming Platform",
    "Music player with playlists and user preferences",
    ["Python", "FastAPI", "MongoDB"], "Completed", false⟩,
   ⟨"4", "Emoji Classifier",
    "Machine learning model to classify and analyze emojis",
    ["Python", "TensorFlow", "Pandas"], "In Progress", true⟩]

/-- The home handler's featured-projects query.  When the store is reachable
(`storeResult = some docs`), `find(featured true).limit(2)` returns the first
two matching documents; on any store exception (`storeResult = none`) the
handler substitutes `[p for p in FALLBACK_PROJECTS if p.get("featured")][:2]`. -/
def homeFeaturedProjects (storeResult : Option (List FProj)) : List FProj :=
  match storeResult with
  | some docs => (docs.filter (fun p => p.ffeatured)).take 2
  | none => (FALLBACK_PROJECTS.filter (fun p => p.ffeatured)).take 2

/-! ## Helper lemmas -/

/-- Filtering a list on the emptiness of the stripped segment and then
stripping each survivor is the same as stripping every segment first and then
dropping the empty results. -/
theorem filter_strip_comm (l : List String) :
    (l.filter (fun tech => pyStrip tech != "")).map (fun tech => pyStrip tech) =
      (l.map (fun tech => pyStrip tech)).filter (fun t => t != "") := by
  induction l with
  | nil => rfl
  | cons t ts ih =>
    by_cases h : pyStrip t = ""
    · simp [List.filter_cons, List.map_cons, h, ih]
    · simp [List.filter_cons, List.map_cons, h, ih]

/-- A successful `ContactCreate` construction implies the email format check
passed. -/
theorem contactValidate_ok_email (isEmail : String → Bool)
    (first_name last_name email subject message : String) (newsletter_signup : Bool)
    (cd : List (String × Value))
    (hv : contactValidate isEmail first_name last_name email subject message newsletter_signup =
      Except.ok cd) :
    isEmail email = true := by
  unfold contactValidate at hv
  split at hv
  · cases hv
  · split at hv
    · cases hv
    · split at hv
      · cases hv
      · rename_i h3
        simpa using h3

/-! ## Claim theorems -/

/-- C1: the claim says DELETE /admin/projects/id on a missing record returns a
structured 404 not-found.  Evaluating `delete_project` on a well-formed id that
matches no stored record shows the code instead answers with a 500 error (the
404 raised in the `try` body is caught by the blanket `except Exception` and
re-raised as `HTTPException(500, str(e))`), though the collection is indeed
left unchanged and an existing record is deleted with the success body. -/
theorem delete_missing_project_gives_500 :
    delete_project "0123456789abcdef01234567" true
        [⟨"aaaaaaaaaaaaaaaaaaaaaaaa", [("name", Value.vStr "Sample")]⟩] =
      (Resp.err 500 "404: Project not found",
        [⟨"aaaaaaaaaaaaaaaaaaaaaaaa", [("name", Value.vStr "Sample")]⟩]) ∧
    delete_project "aaaaaaaaaaaaaaaaaaaaaaaa" true
        [⟨"aaaaaaaaaaaaaaaaaaaaaaaa", [("name", Value.vStr "Sample")]⟩] =
      (Resp.jsonSuccess, []) := by
  constructor <;> rfl

/-- C2 counterexample: after a `connect()` that returned failure (client
construction succeeded, the `server_info()` reachability test raised),
`get_collection` does NOT fail with the not-connected error: it returns a
collection handle, because `self.db` was assigned before the reachability
test. -/
theorem get_collection_after_failed_connect_ok :
    (Database.connect initDB true false).2 = false ∧
    Database.get_collection (Database.connect initDB true false).1 "projects" =
      Except.ok "projects" :=
  ⟨rfl, rfl⟩

/-- C2 amended: `get_collection` fails with the not-connected error exactly
when `self.db` is still unset — before any connect attempt, or after a connect
whose client construction itself raised; after a connect that assigned the
handles and only then failed the reachability test, it returns a collection
handle. -/
theorem get_collection_not_connected_behavior :
    (∀ name, Database.get_collection initDB name = Except.error "Database not connected") ∧
    (∀ name, Database.get_collection (Database.connect initDB false false).1 name =
      Except.error "Database not connected") ∧
    (∀ name, Database.get_collection (Database.connect initDB true false).1 name =
      Except.ok name) ∧
    (∀ name, Database.get_collection (Database.connect initDB true true).1 name =
      Except.ok name) :=
  ⟨fun _ => rfl, fun _ => rfl, fun _ => rfl, fun _ => rfl⟩

/-- C3: the claim says every record inserted by the admin create-project path
carries a created_at timestamp.  Evaluating `add_project` on a valid
submission shows the inserted document is exactly `ProjectCreate(...).dict()`,
which has no created_at field (the `ProjectCreate` schema does not declare
one; only the unused full `Project` schema does). -/
theorem add_project_record_missing_created_at :
    (add_project "Portfolio Site" "A personal portfolio website project"
        "Go, , Rust" "Completed" "" "" true "652f00000000000000000001" true []).2 =
      [⟨"652f00000000000000000001",
        projectCreateDict "Portfolio Site" "A personal portfolio website project"
          ["Go", "Rust"] "Completed" "" "" true⟩] ∧
    (projectCreateDict "Portfolio Site" "A personal portfolio website project"
        ["Go", "Rust"] "Completed" "" "" true).lookup "created_at" = none := by
  constructor <;> rfl

/-- C4: the claim says every persisted contact record carries a created_at
timestamp and a read flag defaulting to false.  Evaluating `submit_contact` on
a valid persisted submission shows the inserted document is exactly
`ContactCreate(...).dict()`, which has neither field (they are declared only
on the unused `ContactMessage` schema), although the admin dashboard sorts by
created_at. -/
theorem contact_record_missing_created_at_and_read :
    (submit_contact (fun _ => true) "Ada" "Lovelace" "ada@example.com" "Hello"
        "A short note" true true "652f00000000000000000002" "" "" false).writes =
      [contactCreateDict "Ada" "Lovelace" "ada@example.com" "Hello" "A short note" true] ∧
    (contactCreateDict "Ada" "Lovelace" "ada@example.com" "Hello" "A short note"
        true).lookup "created_at" = none ∧
    (contactCreateDict "Ada" "Lovelace" "ada@example.com" "Hello" "A short note"
        true).lookup "read" = none := by
  refine ⟨rfl, rfl, rfl⟩

/-- C5: the claim says an admin edit whose identifier matches no record fails
with a not-found error surfaced to the caller.  Evaluating `edit_project` on a
well-formed identifier over an empty store shows the caller instead receives
the 303 redirect to the dashboard (the 404 raised in the `try` body is caught
by the blanket `except Exception`, which only logs, and control falls through
to the final redirect); the matching-record path does write the fields plus
updated_at and redirects. -/
theorem edit_missing_project_redirects :
    edit_project "0123456789abcdef01234567" "New Name"
        "A description over ten characters" "Go, Rust" "Completed" "" "" false
        1700000000 true [] =
      (Resp.redirect 303 "/admin", []) ∧
    edit_project "aaaaaaaaaaaaaaaaaaaaaaaa" "New Name"
        "A description over ten characters" "Go, Rust" "Completed" "" "" false
        1700000000 true [⟨"aaaaaaaaaaaaaaaaaaaaaaaa", [("name", Value.vStr "Old")]⟩] =
      (Resp.redirect 303 "/admin",
        [⟨"aaaaaaaaaaaaaaaaaaaaaaaa",
          [("name", Value.vStr "New Name"),
           ("description", Value.vStr "A description over ten characters"),
           ("tech_stack", Value.vList ["Go", "Rust"]),
           ("status", Value.vStr "Completed"),
           ("github_url", Value.vNone),
           ("demo_url", Value.vNone),
           ("featured", Value.vBool false),
           ("updated_at", Value.vTime 1700000000)]⟩]) := by
  constructor <;> rfl

/-- C6: the tech_stack stored by the create path equals the comma-separated
input split on commas with each segment stripped and empty segments removed,
the edit path applies the same parsing, and the spec example holds. -/
theorem tech_stack_parsing_matches_spec :
    (∀ s, addParseTechStack s = specTechStack s) ∧
    (∀ s, editParseTechStack s = specTechStack s) ∧
    addParseTechStack "Go, , Rust" = ["Go", "Rust"] := by
  refine ⟨fun s => filter_strip_comm _, fun s => filter_strip_comm _, ?_⟩
  rfl

/-- C7: the home page renders at most 2 featured projects and every rendered
entry has featured true, both when the store answers and when the fixed
fallback list is used after a store failure. -/
theorem home_at_most_two_all_featured (storeResult : Option (List FProj)) :
    (homeFeaturedProjects storeResult).length ≤ 2 ∧
    (homeFeaturedProjects storeResult).all (fun p => p.ffeatured) = true := by
  cases storeResult with
  | none => exact ⟨by decide, by decide⟩
  | some docs =>
    simp only [homeFeaturedProjects]
    refine ⟨List.length_take_le 2 (docs.filter (fun p => p.ffeatured)), ?_⟩
    rw [List.all_eq_true]
    intro p hp
    have hmem : p ∈ docs.filter (fun p => p.ffeatured) :=
      List.take_subset 2 _ hp
    exact (List.mem_filter.mp hmem).2

/-- C8 counterexample: for one and the same persisted submission, the
user-visible message differs between a successful email notification and a
failed one, so the user-visible outcome is not literally identical across
email outcomes. -/
theorem contact_message_depends_on_email_outcome :
    ¬ ((submit_contact (fun _ => true) "Ada" "Lovelace" "ada@example.com" "Hi"
          "A message" false true "652f00000000000000000003" "user" "pw" true).message =
        (submit_contact (fun _ => true) "Ada" "Lovelace" "ada@example.com" "Hi"
          "A message" false true "652f00000000000000000003" "user" "pw" false).message) := by
  decide

/-- C8 amended: for every persisted contact submission, the response is always
a 200 render of the contact page with the record written, whatever the email
outcome; the email-skipped case (credentials unconfigured) and the
email-failed case produce the same message; only the message text
distinguishes the email-success case. -/
theorem contact_persisted_outcome (isEmail : String → Bool)
    (fn ln em su me : String) (nl : Bool) (cd : List (String × Value))
    (iid u p u2 p2 : String) (dok dok2 : Bool)
    (hv : contactValidate isEmail fn ln em su me nl = Except.ok cd)
    (hiid : iid ≠ "") :
    (submit_contact isEmail fn ln em su me nl true iid u2 p2 dok2).status = 200 ∧
    (submit_contact isEmail fn ln em su me nl true iid u2 p2 dok2).page = "contact.html" ∧
    (submit_contact isEmail fn ln em su me nl true iid u2 p2 dok2).writes = [cd] ∧
    (submit_contact isEmail fn ln em su me nl true iid "" p dok).message =
      (submit_contact isEmail fn ln em su me nl true iid u p false).message := by
  unfold submit_contact send_email
  rw [hv]
  simp [hiid]

/-- C8 witness. -/
theorem contact_persisted_outcome_witness :
    (submit_contact (fun _ => true) "Ada" "Lovelace" "ada@example.com" "Hi"
        "A message" false true "652f00000000000000000003" "u2" "p2" true).status = 200 ∧
    (submit_contact (fun _ => true) "Ada" "Lovelace" "ada@example.com" "Hi"
        "A message" false true "652f00000000000000000003" "u2" "p2" true).page =
      "contact.html" ∧
    (submit_contact (fun _ => true) "Ada" "Lovelace" "ada@example.com" "Hi"
        "A message" false true "652f00000000000000000003" "u2" "p2" true).writes =
      [contactCreateDict "Ada" "Lovelace" "ada@example.com" "Hi" "A message" false] ∧
    (submit_contact (fun _ => true) "Ada" "Lovelace" "ada@example.com" "Hi"
        "A message" false true "652f00000000000000000003" "" "p" true).message =
      (submit_contact (fun _ => true) "Ada" "Lovelace" "ada@example.com" "Hi"
        "A message" false true "652f00000000000000000003" "u" "p" false).message :=
  contact_persisted_outcome (fun _ => true) "Ada" "Lovelace" "ada@example.com" "Hi"
    "A message" false _ "652f00000000000000000003" "u" "p" "u2" "p2" true true
    rfl (by decide)

/-- C9: a contact submission whose email fails the format check is rejected by
`ContactCreate` validation and no insert into the contacts collection is
attempted, whatever the other fields and the store or email configuration. -/
theorem invalid_email_no_store_write (isEmail : String → Bool)
    (fn ln em su me : String) (nl storeOk : Bool) (iid u p : String) (dok : Bool)
    (h : isEmail em = false) :
    (submit_contact isEmail fn ln em su me nl storeOk iid u p dok).writes = [] := by
  unfold submit_contact
  cases hv : contactValidate isEmail fn ln em su me nl with
  | error e => rfl
  | ok cd =>
    exact absurd (contactValidate_ok_email isEmail fn ln em su me nl cd hv) (by simp [h])

/-- C9 witness. -/
theorem invalid_email_no_store_write_witness :
    (submit_contact (fun _ => false) "Ada" "Lovelace" "not-an-email" "Hi"
        "A message" false true "652f00000000000000000004" "u" "p" true).writes = [] :=
  invalid_email_no_store_write (fun _ => false) "Ada" "Lovelace" "not-an-email" "Hi"
    "A message" false true "652f00000000000000000004" "u" "p" true rfl

/-- C10: a DELETE /admin/projects/id request whose project_id is not a
syntactically valid ObjectId is answered with a 500 server error carrying the
InvalidId message — the `ObjectId` conversion raises before `delete_one` runs,
the blanket `except` wraps it in `HTTPException(500, str(e))` — and the store
is untouched; in particular the response is not the 404 not-found. -/
theorem delete_invalid_objectid_gives_500 (project_id : String)
    (store : List StoredDoc) (h : isValidObjectId project_id = false) :
    delete_project project_id true store =
      (Resp.err 500 (invalidIdMessage project_id), store) := by
  unfold delete_project parseObjectId
  simp [h]

/-- C10 witness. -/
theorem delete_invalid_objectid_gives_500_witness :
    delete_project "not-an-objectid" true
        [⟨"aaaaaaaaaaaaaaaaaaaaaaaa", [("name", Value.vStr "Sample")]⟩] =
      (Resp.err 500 (invalidIdMessage "not-an-objectid"),
        [⟨"aaaaaaaaaaaaaaaaaaaaaaaa", [("name", Value.vStr "Sample")]⟩]) :=
  delete_invalid_objectid_gives_500 "not-an-objectid"
    [⟨"aaaaaaaaaaaaaaaaaaaaaaaa", [("name", Value.vStr "Sample")]⟩] (by decide)

end Portfolio
